import Mathlib

/-!
Shallow embedding of `src/esp8266/esp_wifi.c` (ESP8266 WiFi HAL of the
mongoose-os wifi library): radio mode management, vendor-event translation,
station/AP setup, rate limiting, scan-completion marshaling and the IP-info
query.  Vendor SDK calls are modelled by an oracle structure `Vendor`
(their success/failure and returned data), and each embedded function
returns, besides its result, the list of vendor calls it performed,
so that side effects (sleep-type, disconnect, config-apply calls) are
observable.  The WPA-enterprise branch is compiled only under
`MGOS_ESP8266_WIFI_ENABLE_WPAENT` and is not touched by any claim; the
default (disabled) build is embedded.
-/

namespace EspWifi

/-- The four ESP8266 SDK opmode values (NULL_MODE/STATION_MODE/SOFTAP_MODE/
STATIONAP_MODE). -/
inductive Mode
  | NULL_MODE
  | STATION_MODE
  | SOFTAP_MODE
  | STATIONAP_MODE
deriving DecidableEq, Repr

open Mode

/-- SDK sleep types; the code only ever passes `NONE_SLEEP_T`. -/
inductive SleepType
  | NONE_SLEEP_T
  | LIGHT_SLEEP_T
  | MODEM_SLEEP_T
deriving DecidableEq, Repr

/-- SDK auth modes (AUTH_OPEN .. AUTH_MAX). -/
inductive AuthMode
  | AUTH_OPEN
  | AUTH_WEP
  | AUTH_WPA_PSK
  | AUTH_WPA2_PSK
  | AUTH_WPA_WPA2_PSK
  | AUTH_MAX
deriving DecidableEq, Repr

/-- SDK interface indices. -/
def STATION_IF : Nat := 0

def SOFTAP_IF : Nat := 1

/-- SDK rate-control limit family identifiers. -/
def RC_LIMIT_11B : Nat := 0

def RC_LIMIT_11G : Nat := 1

def RC_LIMIT_11N : Nat := 2

/-- SDK default rate bounds (vendor enum values; the claims do not depend on
the numeric values, only on which argument slot they fill). -/
def RATE_11B_B11M : Nat := 0

def RATE_11B_B1M : Nat := 3

def RATE_11G_G54M : Nat := 0

def RATE_11G_B1M : Nat := 10

def RATE_11N_MCS7S : Nat := 0

def RATE_11N_B1M : Nat := 9

/-- SDK bit for station rate limiting in the user limit-rate mask. -/
def LIMIT_RATE_MASK_STA : Nat := 1

/-- Embeds `struct ip_info` (ip/netmask/gw as 32-bit words). -/
structure ip_info where
  ip : Nat
  netmask : Nat
  gw : Nat
deriving DecidableEq, Repr

/-- Embeds `struct station_config` as filled in by `mgos_wifi_dev_sta_setup`
(zero-initialized, fields ssid/password/bssid_set/bssid). -/
structure station_config where
  ssid : String
  password : String
  bssid_set : Bool
  bssid : List Nat
deriving DecidableEq, Repr

/-- Embeds `struct softap_config` as filled in by `mgos_wifi_dev_ap_setup`. -/
structure softap_config where
  ssid : String
  password : String
  authmode : AuthMode
  channel : Nat
  ssid_hidden : Bool
  max_connection : Nat
  beacon_interval : Nat
deriving DecidableEq, Repr

/-- One vendor SDK call, as recorded in the call trace.  For
`wifi_set_user_rate_limit` the (swallowed) boolean result is recorded too,
since it is otherwise unobservable. -/
inductive Call
  | wifi_set_opmode_current (m : Mode)
  | wifi_set_sleep_type (t : SleepType)
  | wifi_station_disconnect
  | wifi_set_user_rate_limit (fam iface mx mn : Nat) (res : Bool)
  | wifi_get_user_limit_rate_mask
  | wifi_set_user_limit_rate_mask (mask : Nat)
  | wifi_station_dhcpc_stop
  | wifi_set_ip_info (iface : Nat) (info : ip_info)
  | wifi_station_set_config_current (c : station_config)
  | wifi_station_set_auto_connect (n : Nat)
  | wifi_station_set_reconnect_policy (n : Nat)
  | wifi_station_set_hostname (s : String)
  | wifi_softap_set_config_current (c : softap_config)
  | wifi_softap_dhcps_stop
  | wifi_softap_set_dhcps_lease (enable startIp endIp : Nat)
  | wifi_softap_set_dhcps_offer_option (off : Nat)
  | wifi_softap_dhcps_start
deriving DecidableEq, Repr

/-- Oracle for the vendor SDK: outcome of each fallible call, data returned
by queries, and the two external pure helpers the file uses
(`ipaddr_addr` from lwip, `mgos_expand_mac_address_placeholders` and
`mgos_sys_config_get_device_id` from the OS core). -/
structure Vendor where
  set_opmode_ok : Mode → Bool
  set_user_rate_limit_ok : Nat → Nat → Nat → Nat → Bool
  get_user_limit_rate_mask : Nat
  set_user_limit_rate_mask_ok : Nat → Bool
  station_set_config_ok : station_config → Bool
  set_ip_info_ok : Nat → ip_info → Bool
  station_set_hostname_ok : String → Bool
  softap_set_config_ok : softap_config → Bool
  softap_set_dhcps_lease_ok : Bool
  softap_dhcps_start_ok : Bool
  ipaddr_addr : String → Nat
  expand_mac : String → String
  device_id : Option String

/-- Result of a mode-manager or setup entry point: the boolean returned to
the caller, the value of the static `s_cur_mode` afterwards, and the vendor
calls performed. -/
structure SetupResult where
  ok : Bool
  mode : Mode
  calls : List Call
deriving DecidableEq, Repr

/-- Embeds `mgos_wifi_set_mode`: logs, calls `wifi_set_opmode_current(mode)`;
on failure returns false leaving `s_cur_mode` unchanged; on success stores
the mode and, for `STATION_MODE` only, calls
`wifi_set_sleep_type(NONE_SLEEP_T)`. -/
def mgos_wifi_set_mode (v : Vendor) (s_cur_mode : Mode) (mode : Mode) :
    SetupResult :=
  if v.set_opmode_ok mode then
    { ok := true, mode := mode,
      calls := Call.wifi_set_opmode_current mode ::
        (if mode = STATION_MODE then
          [Call.wifi_set_sleep_type SleepType.NONE_SLEEP_T] else []) }
  else
    { ok := false, mode := s_cur_mode,
      calls := [Call.wifi_set_opmode_current mode] }

/-- Embeds `mgos_wifi_add_mode`: no-op if the mode is already active or AP+STA is
active; if the requested single mode complements the current single mode,
selects `STATIONAP_MODE`; otherwise delegates to `mgos_wifi_set_mode`. -/
def mgos_wifi_add_mode (v : Vendor) (s_cur_mode : Mode) (mode : Mode) :
    SetupResult :=
  if s_cur_mode = mode ∨ s_cur_mode = STATIONAP_MODE then
    { ok := true, mode := s_cur_mode, calls := [] }
  else
    mgos_wifi_set_mode v s_cur_mode
      (if (s_cur_mode = SOFTAP_MODE ∧ mode = STATION_MODE) ∨
          (s_cur_mode = STATION_MODE ∧ mode = SOFTAP_MODE) then
        STATIONAP_MODE
      else mode)

/-- Embeds `mgos_wifi_remove_mode`: no-op if the requested mode is disjoint from
the current one or the current mode is off; removing everything (or the
current single mode) selects `NULL_MODE`; removing one half of AP+STA
selects the other half. -/
def mgos_wifi_remove_mode (v : Vendor) (s_cur_mode : Mode) (mode : Mode) :
    SetupResult :=
  if (mode = STATION_MODE ∧ s_cur_mode = SOFTAP_MODE) ∨
     (mode = SOFTAP_MODE ∧ s_cur_mode = STATION_MODE) ∨
     s_cur_mode = NULL_MODE then
    { ok := true, mode := s_cur_mode, calls := [] }
  else
    mgos_wifi_set_mode v s_cur_mode
      (if mode = STATIONAP_MODE ∨
          (mode = STATION_MODE ∧ s_cur_mode = STATION_MODE) ∨
          (mode = SOFTAP_MODE ∧ s_cur_mode = SOFTAP_MODE) then NULL_MODE
       else if mode = STATION_MODE then SOFTAP_MODE
       else STATION_MODE)

/-- Whether a mode includes the station feature. -/
def Mode.hasSta : Mode → Bool
  | STATION_MODE => true
  | STATIONAP_MODE => true
  | _ => false

/-- Whether a mode includes the access-point feature. -/
def Mode.hasAp : Mode → Bool
  | SOFTAP_MODE => true
  | STATIONAP_MODE => true
  | _ => false

/-- The mode with exactly the given station/access-point features. -/
def modeOfFeatures : Bool → Bool → Mode
  | false, false => NULL_MODE
  | true, false => STATION_MODE
  | false, true => SOFTAP_MODE
  | true, true => STATIONAP_MODE

/-- Modelled from the spec: the union of the feature sets of two modes
(the mode table the spec prescribes for `add_mode`). -/
def specModeUnion (a b : Mode) : Mode :=
  modeOfFeatures (a.hasSta || b.hasSta) (a.hasAp || b.hasAp)

/-- Modelled from the spec: the difference of the feature sets of two modes
(the downgrade table the spec prescribes for `remove_mode`). -/
def specModeDiff (a b : Mode) : Mode :=
  modeOfFeatures (a.hasSta && !b.hasSta) (a.hasAp && !b.hasAp)

/-- Embeds `mgos_config_wifi`: the three tx-rate-limit config values (C ints,
`-1` = unset sentinel). -/
structure mgos_config_wifi where
  tx_rate_limit_11b : Int
  tx_rate_limit_11g : Int
  tx_rate_limit_11n : Int
deriving DecidableEq, Repr

/-- C conversion of an int to `uint8_t` (two's-complement truncation). -/
def uint8_of_int (i : Int) : Nat := (i % 256).toNat

/-- C arithmetic right shift of an int by 8 (gcc semantics: floor div). -/
def int_shr8 (i : Int) : Int := Int.fdiv i 256

/-- Embeds `esp_wifi_set_rate_limits`: for each of 11b/11g/11n, computes a
max/min pair (config value split at bit 8 when set, vendor defaults when
unset), always issues the per-family vendor call, and finally rewrites the
user limit-rate mask: the `LIMIT_RATE_MASK_STA` bit is set when at least
one family was configured and all three calls succeeded, cleared
otherwise.  Returns the mask value written and the call trace; the C
function returns void (failures are only logged). -/
def esp_wifi_set_rate_limits (v : Vendor) (cfg : mgos_config_wifi) :
    Nat × List Call :=
  let max_b := if cfg.tx_rate_limit_11b ≠ -1 then
      uint8_of_int (int_shr8 cfg.tx_rate_limit_11b) else RATE_11B_B11M
  let min_b := if cfg.tx_rate_limit_11b ≠ -1 then
      uint8_of_int cfg.tx_rate_limit_11b else RATE_11B_B1M
  let max_g := if cfg.tx_rate_limit_11g ≠ -1 then
      uint8_of_int (int_shr8 cfg.tx_rate_limit_11g) else RATE_11G_G54M
  let min_g := if cfg.tx_rate_limit_11g ≠ -1 then
      uint8_of_int cfg.tx_rate_limit_11g else RATE_11G_B1M
  let max_n := if cfg.tx_rate_limit_11n ≠ -1 then
      uint8_of_int (int_shr8 cfg.tx_rate_limit_11n) else RATE_11N_MCS7S
  let min_n := if cfg.tx_rate_limit_11n ≠ -1 then
      uint8_of_int cfg.tx_rate_limit_11n else RATE_11N_B1M
  let enable_rate_limit : Bool :=
    cfg.tx_rate_limit_11b ≠ -1 ∨ cfg.tx_rate_limit_11g ≠ -1 ∨
      cfg.tx_rate_limit_11n ≠ -1
  let ok_b := v.set_user_rate_limit_ok RC_LIMIT_11B STATION_IF max_b min_b
  let ok_g := v.set_user_rate_limit_ok RC_LIMIT_11G STATION_IF max_g min_g
  let ok_n := v.set_user_rate_limit_ok RC_LIMIT_11N STATION_IF max_n min_n
  let valid_rate_limit := ok_b && ok_g && ok_n
  let limit_mask := v.get_user_limit_rate_mask
  -- `limit_mask &= ~LIMIT_RATE_MASK_STA` on a uint8 is `&&& 254`
  let limit_mask1 := if enable_rate_limit && valid_rate_limit then
      limit_mask ||| LIMIT_RATE_MASK_STA else limit_mask &&& 254
  (limit_mask1,
   [Call.wifi_set_user_rate_limit RC_LIMIT_11B STATION_IF max_b min_b ok_b,
    Call.wifi_set_user_rate_limit RC_LIMIT_11G STATION_IF max_g min_g ok_g,
    Call.wifi_set_user_rate_limit RC_LIMIT_11N STATION_IF max_n min_n ok_n,
    Call.wifi_get_user_limit_rate_mask,
    Call.wifi_set_user_limit_rate_mask limit_mask1])

/-- Embeds `System_Event_t` as consumed by `wifi_changed_cb` (non-RTOS build;
fields reduced to the ones the callback reads). -/
inductive System_Event
  | EVENT_STAMODE_DISCONNECTED (reason : Nat)
  | EVENT_STAMODE_CONNECTED (bssid : List Nat) (channel : Nat)
  | EVENT_STAMODE_GOT_IP
  | EVENT_SOFTAPMODE_STACONNECTED (mac : List Nat)
  | EVENT_SOFTAPMODE_STADISCONNECTED (mac : List Nat)
  | EVENT_STAMODE_AUTHMODE_CHANGE (old_mode new_mode : AuthMode)
  | EVENT_SOFTAPMODE_PROBEREQRECVED
  | EVENT_STAMODE_DHCP_TIMEOUT
deriving DecidableEq, Repr

/-- The portable event record (`struct mgos_wifi_dev_event_info`), one
constructor per nonzero `dei.ev` value the callback can produce. -/
inductive DevEvent
  | STA_DISCONNECTED (reason : Nat)
  | STA_CONNECTED (bssid : List Nat) (channel : Nat)
  | STA_IP_ACQUIRED
  | AP_STA_CONNECTED (mac : List Nat)
  | AP_STA_DISCONNECTED (mac : List Nat)
deriving DecidableEq, Repr

/-- Embeds `wifi_changed_cb`: translates a vendor event into an optional portable
event (`none` models `dei.ev == 0`, i.e. nothing forwarded to
`mgos_wifi_dev_event_cb`) plus the vendor calls made as side effects.
The only side effect is the CVE-2020-12638 workaround: on an auth-mode
change from a non-open mode to open, `wifi_station_disconnect()`. -/
def wifi_changed_cb : System_Event → Option DevEvent × List Call
  | .EVENT_STAMODE_DISCONNECTED r => (some (.STA_DISCONNECTED r), [])
  | .EVENT_STAMODE_CONNECTED b c => (some (.STA_CONNECTED b c), [])
  | .EVENT_STAMODE_GOT_IP => (some .STA_IP_ACQUIRED, [])
  | .EVENT_SOFTAPMODE_STACONNECTED m => (some (.AP_STA_CONNECTED m), [])
  | .EVENT_SOFTAPMODE_STADISCONNECTED m =>
      (some (.AP_STA_DISCONNECTED m), [])
  | .EVENT_STAMODE_AUTHMODE_CHANGE o n =>
      (none,
       if o ≠ AuthMode.AUTH_OPEN ∧ n = AuthMode.AUTH_OPEN then
         [Call.wifi_station_disconnect]
       else [])
  | .EVENT_SOFTAPMODE_PROBEREQRECVED => (none, [])
  | .EVENT_STAMODE_DHCP_TIMEOUT => (none, [])

/-- Embeds `mgos_conf_str_empty`: true for a NULL or empty config string. -/
def mgos_conf_str_empty : Option String → Bool
  | none => true
  | some s => s.isEmpty

/-- Embeds `strncpy` of a C string into an `n`-byte buffer (with the later
NUL-termination the code relies on): keep the first `n` characters. -/
def strncpy_str (s : String) (n : Nat) : String := String.mk (s.toList.take n)

/-- Hex digit test for the `%x` scan. -/
def isHexDigitChar (c : Char) : Bool :=
  c.isDigit || (decide ('a' ≤ c) && decide (c ≤ 'f')) ||
    (decide ('A' ≤ c) && decide (c ≤ 'F'))

/-- Value of a hex digit. -/
def hexDigitVal (c : Char) : Nat :=
  if c.isDigit then c.toNat - 48
  else if decide ('a' ≤ c) then c.toNat - 87
  else c.toNat - 55

/-- C `isspace` characters skipped by a `%x` conversion. -/
def isSpaceChar (c : Char) : Bool :=
  c = ' ' || c = '\t' || c = '\n' || c = '\x0b' || c = '\x0c' || c = '\r'

/-- One `%02x` conversion of `sscanf`: skip whitespace, then at most two
characters forming an optionally signed hex number (the sign counts toward
the width; a `0x` prefix cannot contribute digits within width 2 and
behaves like a bare `0`).  Returns the (possibly negative) value and the
rest of the input, or `none` if no digit could be converted. -/
def scanHexField (cs : List Char) : Option (Int × List Char) :=
  match cs.dropWhile isSpaceChar with
  | [] => none
  | c :: rest =>
    if c = '-' ∨ c = '+' then
      match rest with
      | [] => none
      | d :: rest2 =>
        if isHexDigitChar d then
          some (if c = '-' then -(hexDigitVal d : Int) else
            (hexDigitVal d : Int), rest2)
        else none
    else if isHexDigitChar c then
      match rest with
      | d :: rest2 =>
        if isHexDigitChar d then
          some ((16 * hexDigitVal c + hexDigitVal d : Int), rest2)
        else some ((hexDigitVal c : Int), rest)
      | [] => some ((hexDigitVal c : Int), [])
    else none

/-- A literal `:` in the `sscanf` format: must match exactly. -/
def scanColon (cs : List Char) : Option (List Char) :=
  match cs with
  | c :: rest => if c = ':' then some rest else none
  | [] => none

/-- Embeds `sscanf(s, "%02x:%02x:%02x:%02x:%02x:%02x", ...)` as used on the BSSID:
`some` of the six group values when all six conversions succeed (the code
checks the return value `!= 6`), `none` otherwise. -/
def sscanf_bssid (cs : List Char) : Option (List Int) := do
  let (a, r1) ← scanHexField cs
  let r2 ← scanColon r1
  let (b, r3) ← scanHexField r2
  let r4 ← scanColon r3
  let (c, r5) ← scanHexField r4
  let r6 ← scanColon r5
  let (d, r7) ← scanHexField r6
  let r8 ← scanColon r7
  let (e, r9) ← scanHexField r8
  let r10 ← scanColon r9
  let (f, _) ← scanHexField r10
  pure [a, b, c, d, e, f]

/-- Modelled from the spec: a BSSID string consisting of exactly six
colon-separated two-digit hex groups (the pattern named by the claim). -/
def spec_bssid_strict (cs : List Char) : Bool :=
  match cs with
  | [a, b, c1, c, d, c2, e, f, c3, g, h, c4, i, j, c5, k, l] =>
    c1 = ':' && c2 = ':' && c3 = ':' && c4 = ':' && c5 = ':' &&
      isHexDigitChar a && isHexDigitChar b && isHexDigitChar c &&
      isHexDigitChar d && isHexDigitChar e && isHexDigitChar f &&
      isHexDigitChar g && isHexDigitChar h && isHexDigitChar i &&
      isHexDigitChar j && isHexDigitChar k && isHexDigitChar l
  | _ => false

/-- Embeds `mgos_config_wifi_sta`: the station config fields this file reads.
`Option String` models nullable C config strings. -/
structure mgos_config_wifi_sta where
  enable : Bool
  ssid : String
  bssid : Option String
  ip : Option String
  netmask : Option String
  gw : Option String
  user : Option String
  pass : Option String
  cert : Option String
  key : Option String
  ca_cert : Option String
  anon_identity : Option String
  dhcp_hostname : Option String
deriving DecidableEq, Repr

/-- The part of `mgos_wifi_dev_sta_setup` from `mgos_wifi_add_mode` on
(the enabled path after the unconditional disconnect and rate-limit
calls): BSSID validation and pinning, SSID copy, optional static IP,
password (when not using EAP), `wifi_station_set_config_current`,
auto-connect/reconnect-policy, and the DHCP hostname (WPA-enterprise
branch not compiled). -/
def mgos_wifi_dev_sta_setup_rest (v : Vendor) (cur : Mode)
    (cfg : mgos_config_wifi_sta) : SetupResult :=
  let am := mgos_wifi_add_mode v cur STATION_MODE
  if am.ok = false then { ok := false, mode := am.mode, calls := am.calls }
  else
    match (match cfg.bssid with
           | none => some none
           | some s => (sscanf_bssid s.toList).map some) with
    | none =>
      -- sscanf returned != 6: "Invalid BSSID!", setup aborts
      { ok := false, mode := am.mode, calls := am.calls }
    | some obs =>
      let sta_cfg1 : station_config :=
        match obs with
        | none =>
          { ssid := strncpy_str cfg.ssid 32, password := "",
            bssid_set := false, bssid := [0, 0, 0, 0, 0, 0] }
        | some vs =>
          { ssid := strncpy_str cfg.ssid 32, password := "",
            bssid_set := true, bssid := vs.map uint8_of_int }
      let ip_given := !mgos_conf_str_empty cfg.ip &&
        !mgos_conf_str_empty cfg.netmask
      let info : ip_info :=
        { ip := v.ipaddr_addr (cfg.ip.getD ""),
          netmask := v.ipaddr_addr (cfg.netmask.getD ""),
          gw := if mgos_conf_str_empty cfg.gw = false then
              v.ipaddr_addr (cfg.gw.getD "") else 0 }
      let ipCalls := if ip_given then
          [Call.wifi_station_dhcpc_stop,
           Call.wifi_set_ip_info STATION_IF info] else []
      if ip_given && !v.set_ip_info_ok STATION_IF info then
        { ok := false, mode := am.mode, calls := am.calls ++ ipCalls }
      else
        let sta_cfg2 :=
          if mgos_conf_str_empty cfg.user && !mgos_conf_str_empty cfg.pass
          then { sta_cfg1 with
                 password := strncpy_str (cfg.pass.getD "") 64 }
          else sta_cfg1
        let callsA := am.calls ++ ipCalls ++
          [Call.wifi_station_set_config_current sta_cfg2]
        if v.station_set_config_ok sta_cfg2 = false then
          { ok := false, mode := am.mode, calls := callsA }
        else
          let callsB := callsA ++
            [Call.wifi_station_set_auto_connect 0,
             Call.wifi_station_set_reconnect_policy 0]
          match (match cfg.dhcp_hostname with
                 | some h => some h
                 | none => v.device_id) with
          | none => { ok := true, mode := am.mode, calls := callsB }
          | some h =>
            if v.station_set_hostname_ok h then
              { ok := true, mode := am.mode,
                calls := callsB ++ [Call.wifi_station_set_hostname h] }
            else
              { ok := false, mode := am.mode,
                calls := callsB ++ [Call.wifi_station_set_hostname h] }

/-- Embeds `mgos_wifi_dev_sta_setup`: a disabled config removes station mode; an
enabled one disconnects, applies rate limits (result ignored) and runs the
rest of the setup. -/
def mgos_wifi_dev_sta_setup (v : Vendor) (g : mgos_config_wifi)
    (cur : Mode) (cfg : mgos_config_wifi_sta) : SetupResult :=
  if cfg.enable = false then mgos_wifi_remove_mode v cur STATION_MODE
  else
    let rest := mgos_wifi_dev_sta_setup_rest v cur cfg
    { ok := rest.ok, mode := rest.mode,
      calls := Call.wifi_station_disconnect ::
        ((esp_wifi_set_rate_limits v g).2 ++ rest.calls) }

/-- Embeds `mgos_config_wifi_ap`: the access-point config fields this file reads
(`ip`, `netmask`, `dhcp_start`, `dhcp_end` are passed to `ipaddr_addr`
unconditionally; `gw` is NULL-checked). -/
structure mgos_config_wifi_ap where
  enable : Bool
  ssid : String
  pass : Option String
  channel : Nat
  hidden : Int
  max_connections : Nat
  ip : String
  netmask : String
  gw : Option String
  dhcp_start : String
  dhcp_end : String
deriving DecidableEq, Repr

/-- The part of `mgos_wifi_dev_ap_setup` from `mgos_wifi_add_mode` on:
SSID copy and placeholder expansion, password/auth-mode selection
(open iff the password is empty, WPA2-PSK otherwise),
channel/hidden/max-clients/beacon-interval, `wifi_softap_set_config_current`,
DHCP server stop, IP config, lease range, router-offer option off, DHCP
server start. -/
def mgos_wifi_dev_ap_setup_rest (v : Vendor) (cur : Mode)
    (cfg : mgos_config_wifi_ap) : SetupResult :=
  let am := mgos_wifi_add_mode v cur SOFTAP_MODE
  if am.ok = false then { ok := false, mode := am.mode, calls := am.calls }
  else
    let ssid1 := v.expand_mac (strncpy_str cfg.ssid 32)
    let ap_cfg : softap_config :=
      if mgos_conf_str_empty cfg.pass = false then
        { ssid := ssid1, password := strncpy_str (cfg.pass.getD "") 64,
          authmode := AuthMode.AUTH_WPA2_PSK, channel := cfg.channel,
          ssid_hidden := cfg.hidden != 0,
          max_connection := cfg.max_connections, beacon_interval := 100 }
      else
        { ssid := ssid1, password := "", authmode := AuthMode.AUTH_OPEN,
          channel := cfg.channel, ssid_hidden := cfg.hidden != 0,
          max_connection := cfg.max_connections, beacon_interval := 100 }
    let callsA := am.calls ++ [Call.wifi_softap_set_config_current ap_cfg]
    if v.softap_set_config_ok ap_cfg = false then
      { ok := false, mode := am.mode, calls := callsA }
    else
      let info : ip_info :=
        { ip := v.ipaddr_addr cfg.ip, netmask := v.ipaddr_addr cfg.netmask,
          gw := match cfg.gw with
                | some gwStr => v.ipaddr_addr gwStr
                | none => 0 }
      let callsB := callsA ++
        [Call.wifi_softap_dhcps_stop, Call.wifi_set_ip_info SOFTAP_IF info]
      if v.set_ip_info_ok SOFTAP_IF info = false then
        { ok := false, mode := am.mode, calls := callsB }
      else
        let callsC := callsB ++
          [Call.wifi_softap_set_dhcps_lease 1
            (v.ipaddr_addr cfg.dhcp_start) (v.ipaddr_addr cfg.dhcp_end)]
        if v.softap_set_dhcps_lease_ok = false then
          { ok := false, mode := am.mode, calls := callsC }
        else
          let callsD := callsC ++
            [Call.wifi_softap_set_dhcps_offer_option 0,
             Call.wifi_softap_dhcps_start]
          if v.softap_dhcps_start_ok = false then
            { ok := false, mode := am.mode, calls := callsD }
          else { ok := true, mode := am.mode, calls := callsD }

/-- Embeds `mgos_wifi_dev_ap_setup`: a disabled config removes AP mode; an
enabled one applies rate limits (result ignored) and runs the rest. -/
def mgos_wifi_dev_ap_setup (v : Vendor) (g : mgos_config_wifi)
    (cur : Mode) (cfg : mgos_config_wifi_ap) : SetupResult :=
  if cfg.enable = false then mgos_wifi_remove_mode v cur SOFTAP_MODE
  else
    let rest := mgos_wifi_dev_ap_setup_rest v cur cfg
    { ok := rest.ok, mode := rest.mode,
      calls := (esp_wifi_set_rate_limits v g).2 ++ rest.calls }

/-- Vendor scan status (`STATUS` enum; only `OK` is distinguished). -/
inductive STATUS
  | OK
  | FAIL
  | PENDING
  | BUSY
  | CANCEL
deriving DecidableEq, Repr

/-- One vendor `struct bss_info` entry (the linked list is a `List`). -/
structure bss_info where
  ssid : String
  bssid : List Nat
  channel : Nat
  rssi : Int
  authmode : AuthMode
deriving DecidableEq, Repr

/-- Portable auth-mode enum (`MGOS_WIFI_AUTH_MODE_*`; OPEN = 0). -/
inductive MgosAuthMode
  | OPEN
  | WEP
  | WPA_PSK
  | WPA2_PSK
  | WPA_WPA2_PSK
deriving DecidableEq, Repr

/-- Embeds `struct mgos_wifi_scan_result` (ssid is a 33-byte buffer whose last
byte is forced to NUL, hence at most 32 characters). -/
structure mgos_wifi_scan_result where
  ssid : String
  bssid : List Nat
  channel : Nat
  rssi : Int
  auth_mode : MgosAuthMode
deriving DecidableEq, Repr

/-- Per-entry conversion in `wifi_scan_done`.  For `AUTH_MAX` the switch
has no case, so the calloc-zeroed field (= `MGOS_WIFI_AUTH_MODE_OPEN`)
remains. -/
def scan_result_of_bss (p : bss_info) : mgos_wifi_scan_result :=
  { ssid := strncpy_str p.ssid 32, bssid := p.bssid, channel := p.channel,
    rssi := p.rssi,
    auth_mode :=
      match p.authmode with
      | .AUTH_OPEN => .OPEN
      | .AUTH_WEP => .WEP
      | .AUTH_WPA_PSK => .WPA_PSK
      | .AUTH_WPA2_PSK => .WPA2_PSK
      | .AUTH_WPA_WPA2_PSK => .WPA_WPA2_PSK
      | .AUTH_MAX => .OPEN }

/-- Embeds `wifi_scan_done`: the pair passed to `mgos_wifi_dev_scan_cb`
(count, result array; `none` models a NULL pointer).  `alloc_ok` models
whether the `calloc` of the result array succeeds. -/
def wifi_scan_done (status : STATUS) (info : List bss_info)
    (alloc_ok : Bool) : Int × Option (List mgos_wifi_scan_result) :=
  if status ≠ STATUS.OK then (-1, none)
  else if info.length = 0 then (0, none)
  else if alloc_ok = false then (-1, none)
  else ((info.length : Int), some (info.map scan_result_of_bss))

/-- Embeds `struct mgos_net_ip_info` (the sockaddr fields reduced to the 32-bit
addresses the code writes). -/
structure mgos_net_ip_info where
  ip : Nat
  netmask : Nat
  gw : Nat
deriving DecidableEq, Repr

/-- Embeds `mgos_wifi_dev_get_ip_info`: queries the vendor for the interface's
IP info (`get_fn` models `wifi_get_ip_info`, `none` = vendor failure);
fails when the vendor fails or reports address 0, leaving the caller's
record (`ip_info0`) untouched; otherwise writes the vendor-reported
ip/netmask/gw. -/
def mgos_wifi_dev_get_ip_info (get_fn : Nat → Option ip_info)
    (if_instance : Int) (ip_info0 : mgos_net_ip_info) :
    Bool × mgos_net_ip_info :=
  match get_fn (if if_instance = 0 then STATION_IF else SOFTAP_IF) with
  | none => (false, ip_info0)
  | some info =>
    if info.ip = 0 then (false, ip_info0)
    else (true, { ip := info.ip, netmask := info.netmask, gw := info.gw })

/-- A vendor oracle on which every call succeeds (used to instantiate
universally quantified statements at a concrete input). -/
def vAllOk : Vendor :=
  { set_opmode_ok := fun _ => true
    set_user_rate_limit_ok := fun _ _ _ _ => true
    get_user_limit_rate_mask := 0
    set_user_limit_rate_mask_ok := fun _ => true
    station_set_config_ok := fun _ => true
    set_ip_info_ok := fun _ _ => true
    station_set_hostname_ok := fun _ => true
    softap_set_config_ok := fun _ => true
    softap_set_dhcps_lease_ok := true
    softap_dhcps_start_ok := true
    ipaddr_addr := fun _ => 0
    expand_mac := fun s => s
    device_id := none }

/-- A wifi config with all three rate limits unset. -/
def gUnset : mgos_config_wifi :=
  { tx_rate_limit_11b := -1, tx_rate_limit_11g := -1,
    tx_rate_limit_11n := -1 }

/-- Holds of a trace entry unless it is a per-family rate-limit call whose
recorded vendor result was failure (used to say "every per-family call
made during the run succeeded"). -/
def rate_call_res_true : Call → Prop
  | Call.wifi_set_user_rate_limit _ _ _ _ res => res = true
  | _ => True

/-- A station config whose BSSID consists of six one-digit hex groups:
not six two-digit groups, but accepted by the code's sscanf. -/
def staCfgLaxBssid : mgos_config_wifi_sta :=
  { enable := true, ssid := "net", bssid := some "a:b:c:d:e:f",
    ip := none, netmask := none, gw := none, user := none, pass := none,
    cert := none, key := none, ca_cert := none, anon_identity := none,
    dhcp_hostname := none }

/-- A station config whose BSSID string cannot be scanned at all. -/
def staCfgBadBssid : mgos_config_wifi_sta :=
  { staCfgLaxBssid with bssid := some "nonsense" }

/-- An enabled open (no password) access-point config. -/
def apCfgOpen : mgos_config_wifi_ap :=
  { enable := true, ssid := "ap", pass := none, channel := 6, hidden := 0,
    max_connections := 4, ip := "192.168.4.1", netmask := "255.255.255.0",
    gw := none, dhcp_start := "192.168.4.2", dhcp_end := "192.168.4.100" }

/-- C1: for every pair (current mode, requested mode) with the requested
mode in (AP, STA, AP+STA), and with the vendor opmode call succeeding,
`mgos_wifi_add_mode` returns success and the stored mode afterwards is the
union of the current and requested feature sets; when the requested mode
is already active, or AP+STA is active, it is a no-op (no vendor call).
Adding one feature therefore never drops the other. -/
theorem add_mode_union_table (v : Vendor) (cur req : Mode)
    (hreq : req ≠ NULL_MODE) (hv : ∀ m, v.set_opmode_ok m = true) :
    (mgos_wifi_add_mode v cur req).ok = true ∧
    (mgos_wifi_add_mode v cur req).mode = specModeUnion cur req ∧
    ((cur = req ∨ cur = STATIONAP_MODE) →
      (mgos_wifi_add_mode v cur req).calls = []) := by
  cases cur <;> cases req <;>
    simp_all [mgos_wifi_add_mode, mgos_wifi_set_mode, specModeUnion,
      modeOfFeatures, Mode.hasSta, Mode.hasAp]

/-- Witness for C1: adding STA to a current AP mode succeeds and yields the
combined AP+STA mode. -/
theorem add_mode_union_table_witness :
    (mgos_wifi_add_mode vAllOk SOFTAP_MODE STATION_MODE).ok = true ∧
    (mgos_wifi_add_mode vAllOk SOFTAP_MODE STATION_MODE).mode =
      specModeUnion SOFTAP_MODE STATION_MODE ∧
    ((SOFTAP_MODE = STATION_MODE ∨ SOFTAP_MODE = STATIONAP_MODE) →
      (mgos_wifi_add_mode vAllOk SOFTAP_MODE STATION_MODE).calls = []) :=
  add_mode_union_table vAllOk SOFTAP_MODE STATION_MODE (by decide)
    (fun _ => rfl)

/-- C2: for every pair (current mode, requested mode) with the requested
mode in (AP, STA, AP+STA), and with the vendor opmode call succeeding,
`mgos_wifi_remove_mode` returns success and the stored mode afterwards is
the current feature set minus the requested one: a no-op (no vendor call)
when the requested mode is absent or disjoint from the current mode
(including current mode off), the remaining single mode when removing one
half of AP+STA, off when the requested mode equals the current single mode
or is the combined mode itself.  No other transition is reachable. -/
theorem remove_mode_diff_table (v : Vendor) (cur req : Mode)
    (hreq : req ≠ NULL_MODE) (hv : ∀ m, v.set_opmode_ok m = true) :
    (mgos_wifi_remove_mode v cur req).ok = true ∧
    (mgos_wifi_remove_mode v cur req).mode = specModeDiff cur req ∧
    (((req = STATION_MODE ∧ cur = SOFTAP_MODE) ∨
      (req = SOFTAP_MODE ∧ cur = STATION_MODE) ∨ cur = NULL_MODE) →
      (mgos_wifi_remove_mode v cur req).calls = []) := by
  cases cur <;> cases req <;>
    simp_all [mgos_wifi_remove_mode, mgos_wifi_set_mode, specModeDiff,
      modeOfFeatures, Mode.hasSta, Mode.hasAp]

/-- Witness for C2: removing STA from the combined AP+STA mode succeeds
and downgrades to AP. -/
theorem remove_mode_diff_table_witness :
    (mgos_wifi_remove_mode vAllOk STATIONAP_MODE STATION_MODE).ok = true ∧
    (mgos_wifi_remove_mode vAllOk STATIONAP_MODE STATION_MODE).mode =
      specModeDiff STATIONAP_MODE STATION_MODE ∧
    (((STATION_MODE = STATION_MODE ∧ STATIONAP_MODE = SOFTAP_MODE) ∨
      (STATION_MODE = SOFTAP_MODE ∧ STATIONAP_MODE = STATION_MODE) ∨
      STATIONAP_MODE = NULL_MODE) →
      (mgos_wifi_remove_mode vAllOk STATIONAP_MODE STATION_MODE).calls =
        []) :=
  remove_mode_diff_table vAllOk STATIONAP_MODE STATION_MODE (by decide)
    (fun _ => rfl)

/-- C3: `mgos_wifi_set_mode` reports success exactly when the vendor
opmode call succeeds; on failure the stored mode is exactly what it was
before the call, on success it equals the requested mode. -/
theorem set_mode_updates_only_on_success (v : Vendor) (cur mode : Mode) :
    (mgos_wifi_set_mode v cur mode).ok = v.set_opmode_ok mode ∧
    (mgos_wifi_set_mode v cur mode).mode =
      (if v.set_opmode_ok mode then mode else cur) := by
  by_cases h : v.set_opmode_ok mode <;> simp [mgos_wifi_set_mode, h]

/-- Witness for C3: with a vendor on which the opmode call fails, setting
STA mode from AP mode fails and leaves the stored mode at AP. -/
theorem set_mode_updates_only_on_success_witness :
    (mgos_wifi_set_mode { vAllOk with set_opmode_ok := fun _ => false }
      SOFTAP_MODE STATION_MODE).ok = false ∧
    (mgos_wifi_set_mode { vAllOk with set_opmode_ok := fun _ => false }
      SOFTAP_MODE STATION_MODE).mode = SOFTAP_MODE :=
  set_mode_updates_only_on_success
    { vAllOk with set_opmode_ok := fun _ => false } SOFTAP_MODE
    STATION_MODE

/-- C4: an auth-mode-change event whose prior mode is not open and whose
new mode is open forces a station disconnect; any other auth-mode-change
event forces none; and no portable event record is forwarded for
auth-mode-change events in either case. -/
theorem auth_downgrade_forces_disconnect (o n : AuthMode) :
    (wifi_changed_cb (.EVENT_STAMODE_AUTHMODE_CHANGE o n)).1 = none ∧
    ((wifi_changed_cb (.EVENT_STAMODE_AUTHMODE_CHANGE o n)).2 =
        [Call.wifi_station_disconnect] ↔
      (o ≠ AuthMode.AUTH_OPEN ∧ n = AuthMode.AUTH_OPEN)) ∧
    ((wifi_changed_cb (.EVENT_STAMODE_AUTHMODE_CHANGE o n)).2 = [] ↔
      ¬(o ≠ AuthMode.AUTH_OPEN ∧ n = AuthMode.AUTH_OPEN)) := by
  cases o <;> cases n <;> simp [wifi_changed_cb]

/-- Witness for C4: a WPA2-to-open downgrade event forwards no portable
event and issues the forced disconnect. -/
theorem auth_downgrade_forces_disconnect_witness :
    (wifi_changed_cb (.EVENT_STAMODE_AUTHMODE_CHANGE
      AuthMode.AUTH_WPA2_PSK AuthMode.AUTH_OPEN)).1 = none ∧
    (wifi_changed_cb (.EVENT_STAMODE_AUTHMODE_CHANGE
      AuthMode.AUTH_WPA2_PSK AuthMode.AUTH_OPEN)).2 =
      [Call.wifi_station_disconnect] :=
  ⟨(auth_downgrade_forces_disconnect AuthMode.AUTH_WPA2_PSK
      AuthMode.AUTH_OPEN).1,
   (auth_downgrade_forces_disconnect AuthMode.AUTH_WPA2_PSK
      AuthMode.AUTH_OPEN).2.1.mpr (by decide)⟩

/-- C8: `mgos_wifi_set_mode` to station mode performs the vendor
sleep-type call with the no-sleep value exactly when the opmode switch
succeeded; setting AP mode never performs a sleep-type call. -/
theorem set_mode_sleep_type (v : Vendor) (cur : Mode) :
    (Call.wifi_set_sleep_type SleepType.NONE_SLEEP_T ∈
        (mgos_wifi_set_mode v cur STATION_MODE).calls ↔
      v.set_opmode_ok STATION_MODE = true) ∧
    (∀ t, Call.wifi_set_sleep_type t ∉
        (mgos_wifi_set_mode v cur SOFTAP_MODE).calls) := by
  constructor
  · by_cases h : v.set_opmode_ok STATION_MODE <;>
      simp [mgos_wifi_set_mode, h]
  · intro t
    by_cases h : v.set_opmode_ok SOFTAP_MODE <;>
      simp [mgos_wifi_set_mode, h]

/-- Witness for C8: with an all-succeeding vendor, setting station mode
issues the no-sleep call. -/
theorem set_mode_sleep_type_witness :
    Call.wifi_set_sleep_type SleepType.NONE_SLEEP_T ∈
      (mgos_wifi_set_mode vAllOk NULL_MODE STATION_MODE).calls :=
  (set_mode_sleep_type vAllOk NULL_MODE).1.mpr rfl

/-- C7: the scan-completion callback distinguishes the three outcomes:
vendor error status gives count -1 with a null result; a successful scan
with no visible networks gives count 0 with a null result; allocation
failure while assembling the array gives count -1 with a null result; a
successful non-empty scan gives a positive count equal to the length of
the vendor list, together with an array of that many entries. -/
theorem scan_done_outcomes (status : STATUS) (info : List bss_info)
    (alloc_ok : Bool) :
    (status ≠ STATUS.OK →
      wifi_scan_done status info alloc_ok = (-1, none)) ∧
    (status = STATUS.OK → info = [] →
      wifi_scan_done status info alloc_ok = (0, none)) ∧
    (status = STATUS.OK → info ≠ [] → alloc_ok = false →
      wifi_scan_done status info alloc_ok = (-1, none)) ∧
    (status = STATUS.OK → info ≠ [] → alloc_ok = true →
      0 < (wifi_scan_done status info alloc_ok).1 ∧
      (wifi_scan_done status info alloc_ok).1 = (info.length : Int) ∧
      ∃ rs, (wifi_scan_done status info alloc_ok).2 = some rs ∧
        rs.length = info.length) := by
  refine ⟨fun hs => ?_, fun hs hi => ?_, fun hs hi ha => ?_,
    fun hs hi ha => ?_⟩
  · simp [wifi_scan_done, hs]
  · simp [wifi_scan_done, hs, hi]
  · simp [wifi_scan_done, hs, hi, ha, List.length_eq_zero]
  · refine ⟨?_, ?_, info.map scan_result_of_bss, ?_, ?_⟩ <;>
      simp [wifi_scan_done, hs, hi, ha, List.length_eq_zero]
    exact List.length_pos.mpr hi

/-- Witness for C7: a failed scan reports count -1 and a null result, and
a successful two-network scan reports count 2 with a two-entry array. -/
theorem scan_done_outcomes_witness :
    wifi_scan_done STATUS.FAIL [] true = (-1, none) ∧
    (0 < (wifi_scan_done STATUS.OK
        [{ ssid := "a", bssid := [0, 0, 0, 0, 0, 0], channel := 1,
           rssi := -40, authmode := AuthMode.AUTH_WPA2_PSK },
         { ssid := "b", bssid := [1, 0, 0, 0, 0, 0], channel := 6,
           rssi := -70, authmode := AuthMode.AUTH_OPEN }] true).1 ∧
      (wifi_scan_done STATUS.OK
        [{ ssid := "a", bssid := [0, 0, 0, 0, 0, 0], channel := 1,
           rssi := -40, authmode := AuthMode.AUTH_WPA2_PSK },
         { ssid := "b", bssid := [1, 0, 0, 0, 0, 0], channel := 6,
           rssi := -70, authmode := AuthMode.AUTH_OPEN }] true).1 =
        ((2 : Nat) : Int) ∧
      ∃ rs, (wifi_scan_done STATUS.OK
        [{ ssid := "a", bssid := [0, 0, 0, 0, 0, 0], channel := 1,
           rssi := -40, authmode := AuthMode.AUTH_WPA2_PSK },
         { ssid := "b", bssid := [1, 0, 0, 0, 0, 0], channel := 6,
           rssi := -70, authmode := AuthMode.AUTH_OPEN }] true).2 =
          some rs ∧ rs.length = 2) :=
  ⟨(scan_done_outcomes STATUS.FAIL [] true).1 (by decide),
   (scan_done_outcomes STATUS.OK _ true).2.2.2 rfl (by decide) rfl⟩

/-- C10: the IP-info query fails exactly when the vendor call fails or the
vendor reports IP address 0; on failure the caller-supplied record is left
untouched; on success it contains exactly the vendor-reported IP, netmask
and gateway. -/
theorem get_ip_info_outcomes (get_fn : Nat → Option ip_info)
    (if_instance : Int) (ip_info0 : mgos_net_ip_info) :
    ((mgos_wifi_dev_get_ip_info get_fn if_instance ip_info0).1 = false ↔
      (get_fn (if if_instance = 0 then STATION_IF else SOFTAP_IF) = none ∨
       ∃ info, get_fn (if if_instance = 0 then STATION_IF else SOFTAP_IF) =
          some info ∧ info.ip = 0)) ∧
    ((mgos_wifi_dev_get_ip_info get_fn if_instance ip_info0).1 = false →
      (mgos_wifi_dev_get_ip_info get_fn if_instance ip_info0).2 =
        ip_info0) ∧
    (∀ info,
      get_fn (if if_instance = 0 then STATION_IF else SOFTAP_IF) =
        some info →
      info.ip ≠ 0 →
      (mgos_wifi_dev_get_ip_info get_fn if_instance ip_info0).1 = true ∧
      (mgos_wifi_dev_get_ip_info get_fn if_instance ip_info0).2 =
        { ip := info.ip, netmask := info.netmask, gw := info.gw }) := by
  rcases hfn : get_fn (if if_instance = 0 then STATION_IF else SOFTAP_IF)
    with _ | info
  · refine ⟨?_, ?_, ?_⟩ <;>
      simp [mgos_wifi_dev_get_ip_info, hfn]
  · by_cases hip : info.ip = 0 <;>
      refine ⟨?_, ?_, ?_⟩ <;>
      simp [mgos_wifi_dev_get_ip_info, hfn, hip]

/-- Witness for C10: a vendor report with IP 0 on the station interface
makes the query fail and leaves the output record untouched. -/
theorem get_ip_info_outcomes_witness :
    (mgos_wifi_dev_get_ip_info
      (fun _ => some { ip := 0, netmask := 0, gw := 0 }) 0
      { ip := 7, netmask := 8, gw := 9 }).1 = false ∧
    (mgos_wifi_dev_get_ip_info
      (fun _ => some { ip := 0, netmask := 0, gw := 0 }) 0
      { ip := 7, netmask := 8, gw := 9 }).2 =
      { ip := 7, netmask := 8, gw := 9 } := by
  have h := get_ip_info_outcomes
    (fun _ => some { ip := 0, netmask := 0, gw := 0 }) 0
    { ip := 7, netmask := 8, gw := 9 }
  have h1 : (mgos_wifi_dev_get_ip_info
      (fun _ => some { ip := 0, netmask := 0, gw := 0 }) 0
      { ip := 7, netmask := 8, gw := 9 }).1 = false :=
    h.1.mpr (Or.inr ⟨{ ip := 0, netmask := 0, gw := 0 }, rfl, rfl⟩)
  exact ⟨h1, h.2.1 h1⟩

lemma mem_set_mode_calls (v : Vendor) (cur m : Mode) (c : Call)
    (h : c ∈ (mgos_wifi_set_mode v cur m).calls) :
    c = Call.wifi_set_opmode_current m ∨
      c = Call.wifi_set_sleep_type SleepType.NONE_SLEEP_T := by
  unfold mgos_wifi_set_mode at h
  split at h <;> simp at h
  · rcases h with h | ⟨_, h⟩
    · exact Or.inl h
    · exact Or.inr h
  · exact Or.inl h

lemma mem_add_mode_calls (v : Vendor) (cur m : Mode) (c : Call)
    (h : c ∈ (mgos_wifi_add_mode v cur m).calls) :
    (∃ m1, c = Call.wifi_set_opmode_current m1) ∨
      c = Call.wifi_set_sleep_type SleepType.NONE_SLEEP_T := by
  unfold mgos_wifi_add_mode at h
  split at h
  · simp at h
  · rcases mem_set_mode_calls _ _ _ _ h with h1 | h1
    · exact Or.inl ⟨_, h1⟩
    · exact Or.inr h1

lemma mem_rate_calls (v : Vendor) (g : mgos_config_wifi) (c : Call)
    (h : c ∈ (esp_wifi_set_rate_limits v g).2) :
    (∃ fam iface mx mn res,
        c = Call.wifi_set_user_rate_limit fam iface mx mn res) ∨
    c = Call.wifi_get_user_limit_rate_mask ∨
    ∃ mask, c = Call.wifi_set_user_limit_rate_mask mask := by
  simp only [esp_wifi_set_rate_limits, List.mem_cons,
    List.not_mem_nil, or_false] at h
  rcases h with rfl | rfl | rfl | rfl | rfl
  · exact Or.inl ⟨_, _, _, _, _, rfl⟩
  · exact Or.inl ⟨_, _, _, _, _, rfl⟩
  · exact Or.inl ⟨_, _, _, _, _, rfl⟩
  · exact Or.inr (Or.inl rfl)
  · exact Or.inr (Or.inr ⟨_, rfl⟩)

lemma rate_calls_no_sta_config (v : Vendor) (g : mgos_config_wifi)
    (c : station_config) :
    Call.wifi_station_set_config_current c ∉
      (esp_wifi_set_rate_limits v g).2 := by
  intro h
  rcases mem_rate_calls v g _ h with ⟨_, _, _, _, _, h1⟩ | h1 | ⟨_, h1⟩ <;>
    simp at h1

lemma add_mode_no_sta_config (v : Vendor) (cur m : Mode)
    (c : station_config) :
    Call.wifi_station_set_config_current c ∉
      (mgos_wifi_add_mode v cur m).calls := by
  intro h
  rcases mem_add_mode_calls v cur m _ h with ⟨_, h1⟩ | h1 <;> simp at h1

lemma rate_calls_no_softap_config (v : Vendor) (g : mgos_config_wifi)
    (c : softap_config) :
    Call.wifi_softap_set_config_current c ∉
      (esp_wifi_set_rate_limits v g).2 := by
  intro h
  rcases mem_rate_calls v g _ h with ⟨_, _, _, _, _, h1⟩ | h1 | ⟨_, h1⟩ <;>
    simp at h1

lemma add_mode_no_softap_config (v : Vendor) (cur m : Mode)
    (c : softap_config) :
    Call.wifi_softap_set_config_current c ∉
      (mgos_wifi_add_mode v cur m).calls := by
  intro h
  rcases mem_add_mode_calls v cur m _ h with ⟨_, h1⟩ | h1 <;> simp at h1

lemma testBit_lor_one_zero (m : Nat) : Nat.testBit (m ||| 1) 0 = true := by
  rw [Nat.testBit_lor]
  have h1 : Nat.testBit 1 0 = true := rfl
  rw [h1, Bool.or_true]

lemma testBit_land_254_zero (m : Nat) :
    Nat.testBit (m &&& 254) 0 = false := by
  rw [Nat.testBit_land]
  have h1 : Nat.testBit 254 0 = false := rfl
  rw [h1, Bool.and_false]

lemma testBit_mask_ite (b : Bool) (m : Nat) :
    Nat.testBit (if b then m ||| 1 else m &&& 254) 0 = b := by
  cases b
  · simp [testBit_land_254_zero m]
  · simp [testBit_lor_one_zero m]

lemma remove_mode_rl_irrel (v : Vendor) (r : Nat → Nat → Nat → Nat → Bool)
    (cur m : Mode) :
    mgos_wifi_remove_mode { v with set_user_rate_limit_ok := r } cur m =
      mgos_wifi_remove_mode v cur m := by
  unfold mgos_wifi_remove_mode mgos_wifi_set_mode
  rfl

lemma sta_rest_rl_irrel (v : Vendor) (r : Nat → Nat → Nat → Nat → Bool)
    (cur : Mode) (cfg : mgos_config_wifi_sta) :
    mgos_wifi_dev_sta_setup_rest { v with set_user_rate_limit_ok := r }
        cur cfg =
      mgos_wifi_dev_sta_setup_rest v cur cfg := by
  unfold mgos_wifi_dev_sta_setup_rest mgos_wifi_add_mode mgos_wifi_set_mode
  rfl

lemma ap_rest_rl_irrel (v : Vendor) (r : Nat → Nat → Nat → Nat → Bool)
    (cur : Mode) (cfg : mgos_config_wifi_ap) :
    mgos_wifi_dev_ap_setup_rest { v with set_user_rate_limit_ok := r }
        cur cfg =
      mgos_wifi_dev_ap_setup_rest v cur cfg := by
  unfold mgos_wifi_dev_ap_setup_rest mgos_wifi_add_mode mgos_wifi_set_mode
  rfl

/-- C9: after the rate limiter runs, the station rate-limiting bit of the
mask it writes is set iff at least one of the three families had a
configured value other than the unset sentinel (-1) and every per-family
vendor limit call made during the run succeeded (otherwise the bit is
cleared); and per-family call outcomes never change the result of the
enclosing station or AP setup call. -/
theorem rate_limits_mask_and_nonfatal (v : Vendor) (g : mgos_config_wifi)
    (r : Nat → Nat → Nat → Nat → Bool) (cur : Mode)
    (scfg : mgos_config_wifi_sta) (acfg : mgos_config_wifi_ap) :
    (Nat.testBit (esp_wifi_set_rate_limits v g).1 0 = true ↔
      ((g.tx_rate_limit_11b ≠ -1 ∨ g.tx_rate_limit_11g ≠ -1 ∨
        g.tx_rate_limit_11n ≠ -1) ∧
       ∀ c ∈ (esp_wifi_set_rate_limits v g).2, rate_call_res_true c)) ∧
    (mgos_wifi_dev_sta_setup { v with set_user_rate_limit_ok := r } g cur
        scfg).ok = (mgos_wifi_dev_sta_setup v g cur scfg).ok ∧
    (mgos_wifi_dev_ap_setup { v with set_user_rate_limit_ok := r } g cur
        acfg).ok = (mgos_wifi_dev_ap_setup v g cur acfg).ok := by
  refine ⟨?_, ?_, ?_⟩
  · simp only [esp_wifi_set_rate_limits, LIMIT_RATE_MASK_STA]
    rw [testBit_mask_ite]
    simp [rate_call_res_true, and_assoc]
  · by_cases h : scfg.enable = false
    · simp [mgos_wifi_dev_sta_setup, h, remove_mode_rl_irrel]
    · simp only [mgos_wifi_dev_sta_setup, if_neg h, sta_rest_rl_irrel]
  · by_cases h : acfg.enable = false
    · simp [mgos_wifi_dev_ap_setup, h, remove_mode_rl_irrel]
    · simp only [mgos_wifi_dev_ap_setup, if_neg h, ap_rest_rl_irrel]

/-- Witness for C9: with every rate limit unset, the station bit of the
mask the rate limiter writes is cleared. -/
theorem rate_limits_mask_and_nonfatal_witness :
    Nat.testBit (esp_wifi_set_rate_limits vAllOk gUnset).1 0 = false := by
  have h := (rate_limits_mask_and_nonfatal vAllOk gUnset
    (fun _ _ _ _ => true) NULL_MODE staCfgBadBssid apCfgOpen).1
  rw [Bool.eq_false_iff]
  intro hb
  rcases (h.mp hb).1 with h1 | h1 | h1 <;> exact h1 rfl

lemma sta_rest_bad_bssid (v : Vendor) (cur : Mode)
    (cfg : mgos_config_wifi_sta) (s : String) (hb : cfg.bssid = some s)
    (hp : sscanf_bssid s.toList = none) :
    mgos_wifi_dev_sta_setup_rest v cur cfg =
      { ok := false, mode := (mgos_wifi_add_mode v cur STATION_MODE).mode,
        calls := (mgos_wifi_add_mode v cur STATION_MODE).calls } := by
  have hp' : sscanf_bssid s.data = none := hp
  by_cases ham : (mgos_wifi_add_mode v cur STATION_MODE).ok = false <;>
    simp [mgos_wifi_dev_sta_setup_rest, hb, hp', ham]

/-- C5 (amended): if an enabled station config has a non-null BSSID string
on which the six-field colon-separated hex scan fails (fewer than six
conversions), the station setup call returns failure and the vendor
station config-apply call is never invoked during that call. -/
theorem sta_setup_bad_bssid_fails (v : Vendor) (g : mgos_config_wifi)
    (cur : Mode) (cfg : mgos_config_wifi_sta) (s : String)
    (he : cfg.enable = true) (hb : cfg.bssid = some s)
    (hp : sscanf_bssid s.toList = none) :
    (mgos_wifi_dev_sta_setup v g cur cfg).ok = false ∧
    ∀ c : station_config, Call.wifi_station_set_config_current c ∉
      (mgos_wifi_dev_sta_setup v g cur cfg).calls := by
  constructor
  · simp [mgos_wifi_dev_sta_setup, he, sta_rest_bad_bssid v cur cfg s hb hp]
  · intro c hc
    have hc2 : Call.wifi_station_set_config_current c ∈
        Call.wifi_station_disconnect ::
          ((esp_wifi_set_rate_limits v g).2 ++
            (mgos_wifi_dev_sta_setup_rest v cur cfg).calls) := by
      simpa [mgos_wifi_dev_sta_setup, he] using hc
    rcases List.mem_cons.mp hc2 with h1 | h1
    · exact Call.noConfusion h1
    rcases List.mem_append.mp h1 with h2 | h2
    · exact rate_calls_no_sta_config v g c h2
    · rw [sta_rest_bad_bssid v cur cfg s hb hp] at h2
      exact add_mode_no_sta_config v cur STATION_MODE c h2

/-- Witness for C5 (amended): the unscannable BSSID string "nonsense"
makes an enabled station setup fail with no config-apply call. -/
theorem sta_setup_bad_bssid_fails_witness :
    sscanf_bssid ("nonsense".toList) = none ∧
    ((mgos_wifi_dev_sta_setup vAllOk gUnset NULL_MODE
        staCfgBadBssid).ok = false ∧
     ∀ c : station_config, Call.wifi_station_set_config_current c ∉
       (mgos_wifi_dev_sta_setup vAllOk gUnset NULL_MODE
         staCfgBadBssid).calls) :=
  ⟨by decide,
   sta_setup_bad_bssid_fails vAllOk gUnset NULL_MODE staCfgBadBssid
     "nonsense" rfl rfl (by decide)⟩

/-- Counterexample for C5: the BSSID string "a:b:c:d:e:f" does not match
six colon-separated two-digit hex groups, yet an enabled station setup
carrying it succeeds and does invoke the vendor config-apply call (the
sscanf pattern also accepts one-digit groups), refuting the claim as
stated. -/
theorem sta_setup_bssid_counterexample :
    spec_bssid_strict ("a:b:c:d:e:f".toList) = false ∧
    staCfgLaxBssid.enable = true ∧
    (mgos_wifi_dev_sta_setup vAllOk gUnset NULL_MODE
      staCfgLaxBssid).ok = true ∧
    Call.wifi_station_set_config_current
        { ssid := "net", password := "", bssid_set := true,
          bssid := [10, 11, 12, 13, 14, 15] } ∈
      (mgos_wifi_dev_sta_setup vAllOk gUnset NULL_MODE
        staCfgLaxBssid).calls := by
  decide

lemma ap_rest_softap_call_authmode (v : Vendor) (cur : Mode)
    (cfg : mgos_config_wifi_ap) (c : softap_config)
    (h : Call.wifi_softap_set_config_current c ∈
      (mgos_wifi_dev_ap_setup_rest v cur cfg).calls) :
    c.authmode = (if mgos_conf_str_empty cfg.pass = false then
      AuthMode.AUTH_WPA2_PSK else AuthMode.AUTH_OPEN) := by
  rcases Bool.eq_false_or_eq_true (mgos_conf_str_empty cfg.pass) with
    hp | hp <;>
  rcases hgw : cfg.gw with _ | gwStr
  all_goals
    simp only [mgos_wifi_dev_ap_setup_rest, hp, hgw, Bool.true_eq_false,
      if_false, if_true, eq_self_iff_true, ite_true, ite_false] at h
    repeat' split at h
    all_goals simp_all [List.mem_append, add_mode_no_softap_config]

/-- C6: for every enabled access-point config, the auth mode written into
the vendor AP config is open exactly when the password is empty and
WPA2-PSK exactly when the password is non-empty; no other auth mode is
ever selected for the access point. -/
theorem ap_setup_authmode (v : Vendor) (g : mgos_config_wifi) (cur : Mode)
    (cfg : mgos_config_wifi_ap) (c : softap_config)
    (he : cfg.enable = true)
    (hc : Call.wifi_softap_set_config_current c ∈
      (mgos_wifi_dev_ap_setup v g cur cfg).calls) :
    (c.authmode = AuthMode.AUTH_OPEN ↔
      mgos_conf_str_empty cfg.pass = true) ∧
    (c.authmode = AuthMode.AUTH_WPA2_PSK ↔
      mgos_conf_str_empty cfg.pass = false) := by
  have hc2 : Call.wifi_softap_set_config_current c ∈
      (esp_wifi_set_rate_limits v g).2 ++
        (mgos_wifi_dev_ap_setup_rest v cur cfg).calls := by
    simpa [mgos_wifi_dev_ap_setup, he] using hc
  rcases List.mem_append.mp hc2 with h1 | h1
  · exact absurd h1 (rate_calls_no_softap_config v g c)
  · have ha := ap_rest_softap_call_authmode v cur cfg c h1
    by_cases hp : mgos_conf_str_empty cfg.pass = false <;> simp_all

/-- Witness for C6: the open (passwordless) AP config leads to a written
vendor AP config whose auth mode is open and not WPA2-PSK. -/
theorem ap_setup_authmode_witness :
    (({ ssid := "ap", password := "", authmode := AuthMode.AUTH_OPEN,
        channel := 6, ssid_hidden := false, max_connection := 4,
        beacon_interval := 100 : softap_config }).authmode =
          AuthMode.AUTH_OPEN ↔
      mgos_conf_str_empty apCfgOpen.pass = true) ∧
    (({ ssid := "ap", password := "", authmode := AuthMode.AUTH_OPEN,
        channel := 6, ssid_hidden := false, max_connection := 4,
        beacon_interval := 100 : softap_config }).authmode =
          AuthMode.AUTH_WPA2_PSK ↔
      mgos_conf_str_empty apCfgOpen.pass = false) :=
  ap_setup_authmode vAllOk gUnset NULL_MODE apCfgOpen
    { ssid := "ap", password := "", authmode := AuthMode.AUTH_OPEN,
      channel := 6, ssid_hidden := false, max_connection := 4,
      beacon_interval := 100 } rfl (by decide)

end EspWifi
